import Mathlib

/-!
# char_drv.c: a shallow embedding of the character driver

The module keeps its session state in the file-scope statics `message`,
`size_of_message` and `numberOpens`, and its registration state in `major`
and `char_drvClass`.  (`char_drvDevice` is never assigned, and `mycdev` is
only handed to the kernel by address.)  Every function of `char_drv.c` is
translated below as a pure function on those statics.

Conventions.

* Kernel services (`copy_to_user`, `copy_from_user`, `alloc_chrdev_region`,
  `class_create`, `device_create`, `cdev_add`) are not part of the module.
  What such a call does is passed in as an argument of the embedded function,
  so every theorem quantifies over the behaviour of the kernel.
* `int` is 32 bits and `short` 16 bits wide; `size_t`, `ssize_t` and
  `unsigned long` are 64 bits wide (LP64).  Signed arithmetic wraps, as the
  kernel is compiled with `-fno-strict-overflow`.
* `printk` only emits diagnostics and is left out.
* The statics of the session lie in memory in declaration order,
  little-endian and naturally aligned, as an unoptimised build places them:
  `message` at offsets 0-255, `size_of_message` at 256-257, two bytes of
  padding, `numberOpens` at 260-263.  A `copy_from_user` of more than 256
  bytes into `message` therefore runs into `size_of_message` and
  `numberOpens`.  Bytes stored behind offset 263 reach statics that the
  session functions never read; they are counted in `overrun` and not
  tracked further.
-/

namespace CharDrv

/-! ## Machine integers -/

/-- Reduce an integer to the range of a 32-bit `int` (two's complement). -/
def wrapInt32 (x : Int) : Int := (x + 2147483648) % 4294967296 - 2147483648

/-- Largest `int`. -/
def INT_MAX : Int := 2147483647

/-- Smallest `int`. -/
def INT_MIN : Int := -2147483648

/-- Largest `ssize_t`. -/
def SSIZE_MAX : Nat := 9223372036854775807

/-- Conversion of a `size_t` value to `ssize_t`, as done by `return len`. -/
def toSsize (n : Nat) : Int := ((n : Int) + 9223372036854775808) % 18446744073709551616 - 9223372036854775808

/-- Conversion of a `short` to the `unsigned long` count of `copy_to_user`. -/
def toULong (x : Int) : Nat := (x % 18446744073709551616).toNat

/-- The errno of a bad user address, from the kernel headers. -/
def EFAULT : Int := 14

/-! ## Session state -/

/-- One `char`. -/
abbrev Byte := Fin 256

/-- Size of the array `message`. -/
def MESSAGE_SIZE : Nat := 256

/-- The statics `message`, `size_of_message` and `numberOpens`. -/
structure DevState where
  message : List Byte
  size_of_message : Int
  numberOpens : Int
deriving DecidableEq, Repr

/-- Values of the statics when the module is loaded: `message` is zeroed,
`size_of_message` has no initialiser and is therefore 0, `numberOpens = 0`. -/
def DevState.initial : DevState :=
  { message := List.replicate 256 0, size_of_message := 0, numberOpens := 0 }

/-- The statics hold values of their C types. -/
def DevState.wf (s : DevState) : Prop :=
  s.message.length = 256 ∧
  -32768 ≤ s.size_of_message ∧ s.size_of_message ≤ 32767 ∧
  INT_MIN ≤ s.numberOpens ∧ s.numberOpens ≤ INT_MAX

/-- What `dev_open` and `dev_release` give back. -/
structure OpResult where
  state : DevState
  ret : Int
deriving DecidableEq, Repr

/-- Function `dev_open`, lines 42-48: `numberOpens++; return 0;`. -/
def dev_open (s : DevState) : OpResult :=
  { state := { s with numberOpens := wrapInt32 (s.numberOpens + 1) }, ret := 0 }

/-- What `dev_read` gives back, together with what it asked of
`copy_to_user`: `count` is the third argument of the call, `delivered` the
bytes of `message` that reached the client when the whole copy succeeded
(`none` when it did not: how much arrived is then up to the kernel).  Bytes
read from behind `message`, when the count is above 256, are not listed. -/
structure ReadResult where
  state : DevState
  ret : Int
  count : Nat
  delivered : Option (List Byte)
deriving DecidableEq, Repr

/-- Function `dev_read`, lines 62-77.  `error_count` is the value that
`copy_to_user(buffer, message, size_of_message)` leaves in the local
`error_count`; 0 means every byte was copied. -/
def dev_read (s : DevState) (error_count : Int) : ReadResult :=
  let count := toULong s.size_of_message
  if error_count = 0 then
    { state := { s with size_of_message := 0 }, ret := 0, count := count,
      delivered := some (s.message.take count) }
  else
    { state := s, ret := -EFAULT, count := count, delivered := none }

/-- The `len` bytes that `copy_from_user` stores at its destination when it
leaves `uncopied` bytes uncopied: the bytes it could read from the client's
`buffer`, padded with zero bytes up to `len`. -/
def copiedBytes (buffer : List Byte) (len uncopied : Nat) : List Byte :=
  let got := buffer.take (len - uncopied)
  got ++ List.replicate (len - got.length) 0

/-- Contents of the array `message` after `data` has been stored from its
start on; the bytes that do not fit in the array go to what lies behind it
(`spillShort`, `spillInt`). -/
def storeMessage (message data : List Byte) : List Byte :=
  (data ++ message.drop data.length).take MESSAGE_SIZE

/-- Reduce an integer to the range of a 16-bit `short` (two's complement). -/
def wrapInt16 (x : Int) : Int := (x + 32768) % 65536 - 32768

/-- The `w` low bytes of `v`, least significant first. -/
def leBytes (v : Nat) : Nat → List Byte
  | 0 => []
  | w + 1 => ⟨v % 256, Nat.mod_lt v (by decide)⟩ :: leBytes (v / 256) w

/-- The number that a list of bytes spells, least significant byte first. -/
def fromBytesLE : List Byte → Nat
  | [] => 0
  | b :: bs => b.val + 256 * fromBytesLE bs

/-- Bytes of an object that lies `offset` bytes behind the start of
`message`, after `data` has been stored from the start of `message` on: the
bytes of `data` that reach the object replace its leading bytes. -/
def storeAt (old : List Byte) (offset : Nat) (data : List Byte) : List Byte :=
  ((data.drop offset) ++ old.drop (data.drop offset).length).take old.length

/-- Offset of `size_of_message` from the start of `message`. -/
def SIZE_OFFSET : Nat := 256

/-- Offset of `numberOpens` from the start of `message`. -/
def OPENS_OFFSET : Nat := 260

/-- Value of the `short size_of_message` after `data` has been stored from
the start of `message` on: untouched when the copy ends before it. -/
def spillShort (old : Int) (data : List Byte) : Int :=
  if data.length ≤ SIZE_OFFSET then old
  else wrapInt16 (fromBytesLE (storeAt (leBytes (old % 65536).toNat 2) SIZE_OFFSET data))

/-- Value of the `int numberOpens` after `data` has been stored from the
start of `message` on: untouched when the copy ends before it. -/
def spillInt (old : Int) (data : List Byte) : Int :=
  if data.length ≤ OPENS_OFFSET then old
  else wrapInt32 (fromBytesLE (storeAt (leBytes (old % 4294967296).toNat 4) OPENS_OFFSET data))

/-- What `dev_write` gives back; `overrun` counts the bytes that
`copy_from_user` was told to store behind `message[255]`. -/
structure WriteResult where
  state : DevState
  ret : Int
  overrun : Nat
deriving DecidableEq, Repr

/-- Function `dev_write`, lines 91-101: `copy_from_user(message, buffer, len); return
len;`.  `buffer` holds the bytes readable at the client's pointer and
`uncopied` is the result of `copy_from_user`, which the function ignores.
The copy has no bound: all `len` bytes are stored from `message[0]` on, so
what does not fit in `message` lands in `size_of_message` and `numberOpens`. -/
def dev_write (s : DevState) (buffer : List Byte) (len uncopied : Nat) : WriteResult :=
  let data := copiedBytes buffer len uncopied
  { state :=
      { message := storeMessage s.message data,
        size_of_message := spillShort s.size_of_message data,
        numberOpens := spillInt s.numberOpens data },
    ret := toSsize len,
    overrun := len - MESSAGE_SIZE }

/-- Function `dev_release`, lines 112-116: `return 0;`. -/
def dev_release (s : DevState) : OpResult :=
  { state := s, ret := 0 }

/-- One call through the operation table `fops`, with the behaviour of the
copy primitive during that call. -/
inductive Call
  | dev_open
  | dev_read (error_count : Int)
  | dev_write (buffer : List Byte) (len uncopied : Nat)
  | dev_release
deriving DecidableEq, Repr

/-- State of the statics after one call. -/
def step (s : DevState) : Call → DevState
  | .dev_open => (dev_open s).state
  | .dev_read e => (dev_read s e).state
  | .dev_write b len u => (dev_write s b len u).state
  | .dev_release => (dev_release s).state

/-- State of the statics after a sequence of calls. -/
def run (s : DevState) (cs : List Call) : DevState := cs.foldl step s

/-- Number of `dev_open` calls in a sequence. -/
def countOpens : List Call → Nat
  | [] => 0
  | .dev_open :: cs => countOpens cs + 1
  | _ :: cs => countOpens cs

/-- A call that stores nothing behind `message[255]`: every call but a
`dev_write` of more than 256 bytes. -/
def Call.inBounds : Call → Bool
  | .dev_write _ len _ => decide (len ≤ MESSAGE_SIZE)
  | _ => true

/-! ## Registration state -/

/-- A pointer that is not NULL; NULL is `none` of `Option Ptr`. -/
abbrev Ptr := Nat

/-- Result of a kernel call that returns `int`: 0, or a negative error code. -/
inductive KRet
  | ok
  | err (n : Nat)
deriving DecidableEq, Repr

/-- The `int` a kernel call hands back: `err n` is the code `-(n+1)`, so
`err 0` is -1 and `err 11` is -12 (`-ENOMEM`). -/
def KRet.code : KRet → Int
  | .ok => 0
  | .err n => Int.negSucc n

/-- Result of `alloc_chrdev_region`: success with the major number that the
kernel picked, or a negative error code. -/
inductive AllocRet
  | ok (ma : Nat)
  | err (n : Nat)
deriving DecidableEq, Repr

/-- The `int` returned by `alloc_chrdev_region`. -/
def AllocRet.code : AllocRet → Int
  | .ok _ => 0
  | .err n => Int.negSucc n

/-- The kernel's `MKDEV(ma, mi)` for the 32-bit `dev_t`, read back through
the `int major` that the module passes as `&major`. -/
def MKDEV (ma mi : Nat) : Int := wrapInt32 ((ma * 1048576 + mi : Nat) : Int)

/-- Value of `major` after `alloc_chrdev_region(&major, 0, 1, ...)`: the
kernel stores `MKDEV(ma, 0)` when it succeeds and leaves `major` alone when
it fails. -/
def AllocRet.store (major : Int) : AllocRet → Int
  | .ok ma => MKDEV ma 0
  | .err _ => major

/-- What the kernel does during one run of `char_drv_init`.  `cdev_init`
returns nothing and so has no entry. -/
structure InitOutcomes where
  alloc : AllocRet
  class_create : Option Ptr
  device_create : Option Ptr
  cdev_add : KRet
deriving DecidableEq, Repr

/-- The statics `major` and `char_drvClass`. -/
structure RegState where
  major : Int
  char_drvClass : Option Ptr
deriving DecidableEq, Repr

/-- Values at module load: `major = -1`, `char_drvClass = NULL`. -/
def RegState.initial : RegState := { major := -1, char_drvClass := none }

/-- Calls into the kernel made by `char_drv_init` and `cleanup`, with the
arguments that come from the statics. -/
inductive KCall
  | alloc_chrdev_region
  | class_create
  | device_create (cls : Option Ptr) (devt : Int)
  | cdev_init
  | cdev_add (devt : Int)
  | device_destroy (cls : Option Ptr) (devt : Int)
  | cdev_del
  | class_destroy (cls : Ptr)
  | unregister_chrdev_region (devt : Int)
deriving DecidableEq, Repr

/-- Function `cleanup`, lines 140-152: the kernel calls it makes, in order. -/
def cleanup (r : RegState) (device_created : Int) : List KCall :=
  (if device_created ≠ 0 then [KCall.device_destroy r.char_drvClass r.major, KCall.cdev_del] else []) ++
  (match r.char_drvClass with
   | some c => [KCall.class_destroy c]
   | none => []) ++
  (if r.major ≠ -1 then [KCall.unregister_chrdev_region r.major] else [])

/-- What a run of `char_drv_init` leaves behind: the statics, the returned
code, the creation calls made (in order), and the calls made by `cleanup`
(`none` when `cleanup` was not called). -/
structure InitResult where
  state : RegState
  ret : Int
  created : List KCall
  teardown : Option (List KCall)
deriving DecidableEq, Repr

/-- The label `error:` of `char_drv_init`, lines 178-182. -/
def error_exit (r : RegState) (created : List KCall) (device_created : Int) : InitResult :=
  { state := r, ret := -1, created := created, teardown := some (cleanup r device_created) }

/-- Function `char_drv_init`, lines 154-184, started on the statics as loaded. -/
def char_drv_init (o : InitOutcomes) : InitResult :=
  let device_created : Int := 0
  let r1 : RegState := { RegState.initial with major := o.alloc.store RegState.initial.major }
  let c1 := [KCall.alloc_chrdev_region]
  if o.alloc.code < 0 then error_exit r1 c1 device_created else
  let r2 : RegState := { r1 with char_drvClass := o.class_create }
  let c2 := c1 ++ [KCall.class_create]
  if r2.char_drvClass = none then error_exit r2 c2 device_created else
  let c3 := c2 ++ [KCall.device_create r2.char_drvClass r2.major]
  if o.device_create = none then error_exit r2 c3 device_created else
  let device_created : Int := 1
  let c5 := c3 ++ [KCall.cdev_init, KCall.cdev_add r2.major]
  if o.cdev_add.code = -1 then error_exit r2 c5 device_created else
  { state := r2, ret := 0, created := c5, teardown := none }

/-- Function `char_drv_exit`, lines 191-194: `cleanup(1)`. -/
def char_drv_exit (r : RegState) : List KCall := cleanup r 1

/-! ## Lemmas on the machine integers -/

theorem wrapInt32_of_range (x : Int) (h1 : INT_MIN ≤ x) (h2 : x ≤ INT_MAX) : wrapInt32 x = x := by
  unfold INT_MIN at h1
  unfold INT_MAX at h2
  unfold wrapInt32
  omega

theorem wrapInt32_range (x : Int) : INT_MIN ≤ wrapInt32 x ∧ wrapInt32 x ≤ INT_MAX := by
  unfold INT_MIN INT_MAX wrapInt32
  omega

theorem wrapInt32_add_wrap (x y : Int) : wrapInt32 (wrapInt32 x + y) = wrapInt32 (x + y) := by
  unfold wrapInt32
  omega

theorem toSsize_of_le (n : Nat) (h : n ≤ SSIZE_MAX) : toSsize n = n := by
  unfold SSIZE_MAX at h
  unfold toSsize
  omega

theorem MKDEV_ne_neg_one (ma : Nat) : MKDEV ma 0 ≠ -1 := by
  unfold MKDEV wrapInt32
  push_cast
  omega

/-! ## Lemmas on `dev_write` and on sequences of calls -/

theorem copiedBytes_length (buffer : List Byte) (len uncopied : Nat) :
    (copiedBytes buffer len uncopied).length = len := by
  simp only [copiedBytes, List.length_append, List.length_replicate, List.length_take]
  omega

/-- A write of at most 256 bytes leaves `size_of_message` and `numberOpens`
alone. -/
theorem dev_write_inBounds (s : DevState) (buffer : List Byte) (len uncopied : Nat)
    (h : len ≤ MESSAGE_SIZE) :
    (dev_write s buffer len uncopied).state.size_of_message = s.size_of_message ∧
    (dev_write s buffer len uncopied).state.numberOpens = s.numberOpens := by
  unfold MESSAGE_SIZE at h
  have h1 : (copiedBytes buffer len uncopied).length ≤ SIZE_OFFSET := by
    rw [copiedBytes_length]; unfold SIZE_OFFSET; omega
  have h2 : (copiedBytes buffer len uncopied).length ≤ OPENS_OFFSET := by
    rw [copiedBytes_length]; unfold OPENS_OFFSET; omega
  simp [dev_write, spillShort, spillInt, h1, h2]

theorem step_size_of_message (s : DevState) (c : Call) (hc : c.inBounds = true)
    (h : s.size_of_message = 0) : (step s c).size_of_message = 0 := by
  cases c with
  | dev_open => simpa [step, dev_open] using h
  | dev_read e =>
    by_cases he : e = 0
    · simp [step, dev_read, he]
    · simpa [step, dev_read, he] using h
  | dev_write b len u =>
    have hl : len ≤ MESSAGE_SIZE := by simpa [Call.inBounds] using hc
    have := (dev_write_inBounds s b len u hl).1
    simpa [step, this] using h
  | dev_release => simpa [step, dev_release] using h

/-- As long as no write is longer than 256 bytes, `size_of_message` stays 0. -/
theorem run_size_of_message (cs : List Call) :
    ∀ s : DevState, (∀ c ∈ cs, c.inBounds = true) → s.size_of_message = 0 →
      (run s cs).size_of_message = 0 := by
  induction cs with
  | nil => intro s _ h; simpa [run] using h
  | cons c cs ih =>
    intro s hb h
    have h1 := ih (step s c) (fun c' hc' => hb c' (List.mem_cons_of_mem _ hc'))
      (step_size_of_message s c (hb c (List.mem_cons_self _ _)) h)
    simpa [run] using h1

theorem step_numberOpens_other (s : DevState) (c : Call) (hc : c.inBounds = true)
    (h : c ≠ Call.dev_open) : (step s c).numberOpens = s.numberOpens := by
  cases c with
  | dev_open => exact absurd rfl h
  | dev_read e =>
    by_cases he : e = 0
    · simp [step, dev_read, he]
    · simp [step, dev_read, he]
  | dev_write b len u =>
    have hl : len ≤ MESSAGE_SIZE := by simpa [Call.inBounds] using hc
    simpa [step] using (dev_write_inBounds s b len u hl).2
  | dev_release => simp [step, dev_release]

/-- The counter after a sequence of calls without oversized writes is the
wrapped sum, for a counter that starts inside the range of `int`. -/
theorem run_numberOpens_wrap (cs : List Call) :
    ∀ s : DevState, (∀ c ∈ cs, c.inBounds = true) →
      INT_MIN ≤ s.numberOpens → s.numberOpens ≤ INT_MAX →
      (run s cs).numberOpens = wrapInt32 (s.numberOpens + countOpens cs) := by
  induction cs with
  | nil =>
    intro s _ h1 h2
    simp [run, countOpens, wrapInt32_of_range s.numberOpens h1 h2]
  | cons c cs ih =>
    intro s hb h1 h2
    have hb' : ∀ c' ∈ cs, c'.inBounds = true := fun c' hc' => hb c' (List.mem_cons_of_mem _ hc')
    have hbc : c.inBounds = true := hb c (List.mem_cons_self _ _)
    by_cases hc : c = Call.dev_open
    · subst hc
      have hr := wrapInt32_range (s.numberOpens + 1)
      have h3 := ih (step s Call.dev_open) hb' (by simpa [step, dev_open] using hr.1)
        (by simpa [step, dev_open] using hr.2)
      have h4 : (step s Call.dev_open).numberOpens = wrapInt32 (s.numberOpens + 1) := by
        simp [step, dev_open]
      rw [h4, wrapInt32_add_wrap] at h3
      have h5 : run s (Call.dev_open :: cs) = run (step s Call.dev_open) cs := by simp [run]
      rw [h5, h3]
      congr 1
      simp [countOpens]
      ring
    · have h3 := ih (step s c) hb' (by rw [step_numberOpens_other s c hbc hc]; exact h1)
        (by rw [step_numberOpens_other s c hbc hc]; exact h2)
      have h5 : run s (c :: cs) = run (step s c) cs := by simp [run]
      have h6 : countOpens (c :: cs) = countOpens cs := by
        cases c with
        | dev_open => exact absurd rfl hc
        | dev_read e => rfl
        | dev_write b len u => rfl
        | dev_release => rfl
      rw [h5, h3, h6, step_numberOpens_other s c hbc hc]

/-! ## The session operations -/

set_option maxRecDepth 8192

/-- C1 as stated fails: in the module as loaded, a write of one byte followed
by a successful read does not make that read return one byte; it returns 0. -/
theorem read_drains_counterexample :
    (dev_read (dev_write DevState.initial [104] 1 0).state 0).ret = 0 ∧
    (dev_read (dev_write DevState.initial [104] 1 0).state 0).ret ≠ ((1 : Nat) : Int) := by
  decide

/-- C1, amended: after any `dev_write`, a `dev_read` whose `copy_to_user`
succeeds returns 0 and sets `size_of_message` to 0, and a second successful
`dev_read` with no write in between asks for 0 bytes, delivers no byte and
returns 0. -/
theorem read_drains (s : DevState) (buffer : List Byte) (len uncopied : Nat) :
    (dev_read (dev_write s buffer len uncopied).state 0).ret = 0 ∧
    (dev_read (dev_write s buffer len uncopied).state 0).state.size_of_message = 0 ∧
    (dev_read (dev_read (dev_write s buffer len uncopied).state 0).state 0).count = 0 ∧
    (dev_read (dev_read (dev_write s buffer len uncopied).state 0).state 0).delivered = some [] ∧
    (dev_read (dev_read (dev_write s buffer len uncopied).state 0).state 0).ret = 0 := by
  simp [dev_read, dev_write, toULong]

/-- C2 at its failing input: in the module as loaded, `dev_write` of the two
bytes "hi" puts them at the start of `message`, but the following successful
`dev_read` asks `copy_to_user` for 0 bytes and delivers nothing. -/
theorem round_trip_failing_input :
    (dev_write DevState.initial [104, 105] 2 0).state.message.take 2 = [104, 105] ∧
    (dev_write DevState.initial [104, 105] 2 0).state.size_of_message = 0 ∧
    (dev_read (dev_write DevState.initial [104, 105] 2 0).state 0).count = 0 ∧
    (dev_read (dev_write DevState.initial [104, 105] 2 0).state 0).delivered = some [] := by
  decide

/-- C3 at its failing input: `dev_write` of 257 bytes in the module as loaded
returns 257, not an error code, whatever `copy_from_user` does; it tells
`copy_from_user` to store one byte behind the end of `message`, and when the
copy goes through, all 256 bytes of `message` are overwritten. -/
theorem capacity_failing_input :
    (∀ uncopied, (dev_write DevState.initial (List.replicate 257 1) 257 uncopied).ret = 257) ∧
    (dev_write DevState.initial (List.replicate 257 1) 257 0).overrun = 1 ∧
    (dev_write DevState.initial (List.replicate 257 1) 257 0).state.message = List.replicate 256 1 ∧
    (dev_write DevState.initial (List.replicate 257 1) 257 0).state.message ≠ DevState.initial.message := by
  refine ⟨fun _ => ?_, by decide, by decide, by decide⟩
  show toSsize 257 = 257
  decide

/-- C6: when `copy_to_user` reports failure (a non-zero result), `dev_read`
returns `-EFAULT`, a negative code, and leaves `size_of_message`, `message`
and `numberOpens` as they were. -/
theorem dev_read_failure_atomic (s : DevState) (error_count : Int) (h : error_count ≠ 0) :
    (dev_read s error_count).ret = -EFAULT ∧ (dev_read s error_count).ret < 0 ∧
    (dev_read s error_count).state.size_of_message = s.size_of_message ∧
    (dev_read s error_count).state.message = s.message ∧
    (dev_read s error_count).state.numberOpens = s.numberOpens := by
  simp [dev_read, h, EFAULT]

/-- C6 on a state that holds a three-byte message, with a copy that left all
three bytes uncopied. -/
theorem dev_read_failure_atomic_witness :
    (3 : Int) ≠ 0 ∧
    ((dev_read { message := [1, 2, 3], size_of_message := 3, numberOpens := 7 } 3).ret = -EFAULT ∧
     (dev_read { message := [1, 2, 3], size_of_message := 3, numberOpens := 7 } 3).ret < 0 ∧
     (dev_read { message := [1, 2, 3], size_of_message := 3, numberOpens := 7 } 3).state.size_of_message = 3 ∧
     (dev_read { message := [1, 2, 3], size_of_message := 3, numberOpens := 7 } 3).state.message = [1, 2, 3] ∧
     (dev_read { message := [1, 2, 3], size_of_message := 3, numberOpens := 7 } 3).state.numberOpens = 7) :=
  ⟨by decide, dev_read_failure_atomic { message := [1, 2, 3], size_of_message := 3, numberOpens := 7 } 3 (by decide)⟩

/-- C7 as stated fails, in two ways.  From a well-formed state whose counter
holds the largest `int`, one `dev_open` does not leave the counter at its old
value plus one.  And in the module as loaded, an open, a write of 264 bytes
0xFF and a second open leave the counter at 0, not at 2: the write runs over
`numberOpens`. -/
theorem open_counter_counterexample :
    (DevState.wf { DevState.initial with numberOpens := 2147483647 } ∧
     (run { DevState.initial with numberOpens := 2147483647 } [Call.dev_open]).numberOpens
       ≠ 2147483647 + 1) ∧
    (countOpens [Call.dev_open, Call.dev_write (List.replicate 264 255) 264 0, Call.dev_open] = 2 ∧
     (run DevState.initial
        [Call.dev_open, Call.dev_write (List.replicate 264 255) 264 0, Call.dev_open]).numberOpens = 0 ∧
     (run DevState.initial
        [Call.dev_open, Call.dev_write (List.replicate 264 255) 264 0, Call.dev_open]).numberOpens
       ≠ DevState.initial.numberOpens + 2) := by
  refine ⟨⟨?_, by decide⟩, by decide, by decide, by decide⟩
  simp [DevState.wf, DevState.initial, INT_MIN, INT_MAX]

/-- C7, amended: for a counter that starts as an `int` value and a sequence
of calls in which no write is longer than 256 bytes, with `k` opens such that
the old value plus `k` does not exceed `INT_MAX`, the counter after the
sequence is the old value plus `k`; every `dev_open` returns 0, and
`dev_read`, `dev_write` of at most 256 bytes and `dev_release` leave the
counter alone. -/
theorem open_counter (s : DevState) (cs : List Call) (k : Nat)
    (hmin : INT_MIN ≤ s.numberOpens) (hfit : ∀ c ∈ cs, c.inBounds = true)
    (hk : countOpens cs = k) (hmax : s.numberOpens + k ≤ INT_MAX) :
    (run s cs).numberOpens = s.numberOpens + k ∧
    (dev_open s).ret = 0 ∧
    (∀ e, (dev_read s e).state.numberOpens = s.numberOpens) ∧
    (∀ b len u, len ≤ MESSAGE_SIZE → (dev_write s b len u).state.numberOpens = s.numberOpens) ∧
    (dev_release s).state.numberOpens = s.numberOpens := by
  subst hk
  have hle : s.numberOpens ≤ INT_MAX := by
    have : (0 : Int) ≤ (countOpens cs : Int) := Int.ofNat_nonneg _
    omega
  refine ⟨?_, rfl, ?_, ?_, rfl⟩
  · rw [run_numberOpens_wrap cs s hfit hmin hle]
    exact wrapInt32_of_range _ (by have : (0 : Int) ≤ (countOpens cs : Int) := Int.ofNat_nonneg _; omega) hmax
  · intro e
    exact step_numberOpens_other s (Call.dev_read e) rfl (by simp)
  · intro b len u hl
    exact (dev_write_inBounds s b len u hl).2

/-- C7 amended, on the module as loaded and two sessions that open, write,
read and release. -/
theorem open_counter_witness :
    INT_MIN ≤ DevState.initial.numberOpens ∧
    (∀ c ∈ [Call.dev_open, Call.dev_write [104] 1 0, Call.dev_read 0, Call.dev_release,
      Call.dev_open, Call.dev_release], c.inBounds = true) ∧
    countOpens [Call.dev_open, Call.dev_write [104] 1 0, Call.dev_read 0, Call.dev_release,
      Call.dev_open, Call.dev_release] = 2 ∧
    DevState.initial.numberOpens + (2 : Nat) ≤ INT_MAX ∧
    ((run DevState.initial
        [Call.dev_open, Call.dev_write [104] 1 0, Call.dev_read 0, Call.dev_release,
         Call.dev_open, Call.dev_release]).numberOpens = DevState.initial.numberOpens + (2 : Nat) ∧
     (dev_open DevState.initial).ret = 0 ∧
     (∀ e, (dev_read DevState.initial e).state.numberOpens = DevState.initial.numberOpens) ∧
     (∀ b len u, len ≤ MESSAGE_SIZE → (dev_write DevState.initial b len u).state.numberOpens
        = DevState.initial.numberOpens) ∧
     (dev_release DevState.initial).state.numberOpens = DevState.initial.numberOpens) :=
  ⟨by decide, by decide, by decide, by decide,
   open_counter DevState.initial
    [Call.dev_open, Call.dev_write [104] 1 0, Call.dev_read 0, Call.dev_release,
     Call.dev_open, Call.dev_release] 2 (by decide) (by decide) (by decide) (by decide)⟩

/-- C9 at its failing input: in the module as loaded, one `dev_write` of 258
bytes 0x01 leaves `size_of_message` at 257, above 256: the two bytes that do
not fit in `message` land in `size_of_message`. -/
theorem size_of_message_failing_input :
    (dev_write DevState.initial (List.replicate 258 1) 258 0).overrun = 2 ∧
    (run DevState.initial [Call.dev_write (List.replicate 258 1) 258 0]).size_of_message = 257 ∧
    ¬ (run DevState.initial [Call.dev_write (List.replicate 258 1) 258 0]).size_of_message ≤ 256 := by
  decide

/-- C10 as stated fails: a write that is longer than 256 bytes changes the
two counters.  In the module as loaded, 257 bytes 0x01 turn `size_of_message`
from 0 into 1; on a state with `size_of_message = 3` and `numberOpens = 7`, a
write of 300 bytes of which none could be copied (the copy pads with zero
bytes) turns both into 0. -/
theorem dev_write_return_counterexample :
    (dev_write DevState.initial (List.replicate 257 1) 257 0).state.size_of_message = 1 ∧
    (dev_write DevState.initial (List.replicate 257 1) 257 0).state.size_of_message
      ≠ DevState.initial.size_of_message ∧
    (dev_write { DevState.initial with size_of_message := 3, numberOpens := 7 } [] 300 300).state.size_of_message = 0 ∧
    (dev_write { DevState.initial with size_of_message := 3, numberOpens := 7 } [] 300 300).state.numberOpens = 0 := by
  decide

/-- C10, amended: for every state, every requested length `len` up to 256
and every result of `copy_from_user`, `dev_write` returns exactly `len` and
leaves `size_of_message` and `numberOpens` unchanged. -/
theorem dev_write_returns_len (s : DevState) (buffer : List Byte) (len uncopied : Nat)
    (h : len ≤ MESSAGE_SIZE) :
    (dev_write s buffer len uncopied).ret = len ∧
    (dev_write s buffer len uncopied).state.size_of_message = s.size_of_message ∧
    (dev_write s buffer len uncopied).state.numberOpens = s.numberOpens := by
  refine ⟨?_, dev_write_inBounds s buffer len uncopied h⟩
  have h1 : len ≤ SSIZE_MAX := by
    unfold MESSAGE_SIZE at h
    unfold SSIZE_MAX
    omega
  simpa [dev_write] using toSsize_of_le len h1

/-- C10 amended, on a write of 256 bytes of which the copy left 200 uncopied. -/
theorem dev_write_returns_len_witness :
    (256 : Nat) ≤ MESSAGE_SIZE ∧
    ((dev_write { DevState.initial with size_of_message := 3, numberOpens := 7 }
        (List.replicate 256 1) 256 200).ret = (256 : Nat) ∧
     (dev_write { DevState.initial with size_of_message := 3, numberOpens := 7 }
        (List.replicate 256 1) 256 200).state.size_of_message = 3 ∧
     (dev_write { DevState.initial with size_of_message := 3, numberOpens := 7 }
        (List.replicate 256 1) 256 200).state.numberOpens = 7) :=
  ⟨by decide, dev_write_returns_len { DevState.initial with size_of_message := 3, numberOpens := 7 }
    (List.replicate 256 1) 256 200 (by decide)⟩

/-! ## Registration and teardown -/

/-- C4 as stated fails: when `cdev_add` is the first step to fail (it returns
-1), `cleanup` does call `cdev_del`, the removal of the binding. -/
theorem init_teardown_counterexample :
    (KRet.err 0).code < 0 ∧
    KCall.cdev_del ∈
      ((char_drv_init ⟨AllocRet.ok 240, some 1, some 2, KRet.err 0⟩).teardown.getD []) := by
  decide

/-- C4, amended: when `alloc_chrdev_region` fails, `cleanup` makes no
teardown call; when `class_create` is the first to fail, it only releases the
region; when `device_create` is the first to fail, it destroys the class and
then releases the region; `cdev_init` has no failing result; and when
`cdev_add` returns -1 it destroys the node, removes the binding, destroys the
class and releases the region, each once.  In each case `char_drv_init`
returns -1. -/
theorem init_teardown (ma n : Nat) (c d : Ptr) (cc dc : Option Ptr) (a : KRet) :
    (char_drv_init ⟨AllocRet.err n, cc, dc, a⟩).teardown = some [] ∧
    (char_drv_init ⟨AllocRet.err n, cc, dc, a⟩).ret = -1 ∧
    (char_drv_init ⟨AllocRet.ok ma, none, dc, a⟩).teardown
      = some [KCall.unregister_chrdev_region (MKDEV ma 0)] ∧
    (char_drv_init ⟨AllocRet.ok ma, none, dc, a⟩).ret = -1 ∧
    (char_drv_init ⟨AllocRet.ok ma, some c, none, a⟩).teardown
      = some [KCall.class_destroy c, KCall.unregister_chrdev_region (MKDEV ma 0)] ∧
    (char_drv_init ⟨AllocRet.ok ma, some c, none, a⟩).ret = -1 ∧
    (char_drv_init ⟨AllocRet.ok ma, some c, some d, KRet.err 0⟩).teardown
      = some [KCall.device_destroy (some c) (MKDEV ma 0), KCall.cdev_del,
              KCall.class_destroy c, KCall.unregister_chrdev_region (MKDEV ma 0)] ∧
    (char_drv_init ⟨AllocRet.ok ma, some c, some d, KRet.err 0⟩).ret = -1 := by
  have hm := MKDEV_ne_neg_one ma
  have hneg : Int.negSucc n < 0 := Int.negSucc_lt_zero n
  refine ⟨?_, ?_, ?_, ?_, ?_, ?_, ?_, ?_⟩ <;>
    simp [char_drv_init, error_exit, cleanup, AllocRet.code, AllocRet.store, KRet.code,
      RegState.initial, hm, hneg]

/-- C5 at its failing input: when the first three steps succeed and
`cdev_add` returns -12 (`-ENOMEM`), a negative error code, `char_drv_init`
returns 0 and does not call `cleanup`. -/
theorem init_reporting_failing_input :
    (KRet.err 11).code = -12 ∧
    (char_drv_init ⟨AllocRet.ok 240, some 1, some 2, KRet.err 11⟩).ret = 0 ∧
    (char_drv_init ⟨AllocRet.ok 240, some 1, some 2, KRet.err 11⟩).teardown = none := by
  decide

/-- C8 as stated fails: after a fully successful `char_drv_init`, the calls
of `char_drv_exit` are not "binding, node, class, region". -/
theorem exit_order_counterexample :
    (char_drv_init ⟨AllocRet.ok 240, some 1, some 2, KRet.ok⟩).ret = 0 ∧
    char_drv_exit (char_drv_init ⟨AllocRet.ok 240, some 1, some 2, KRet.ok⟩).state
      ≠ [KCall.cdev_del, KCall.device_destroy (some 1) (MKDEV 240 0),
         KCall.class_destroy 1, KCall.unregister_chrdev_region (MKDEV 240 0)] := by
  decide

/-- C8, amended: after a `char_drv_init` in which every step succeeded (the
creation calls being region, class, node, `cdev_init`, `cdev_add`, in that
order), `char_drv_exit` releases each of the four resources exactly once, in
the order node, binding, class, region. -/
theorem exit_order (ma : Nat) (c d : Ptr) :
    (char_drv_init ⟨AllocRet.ok ma, some c, some d, KRet.ok⟩).ret = 0 ∧
    (char_drv_init ⟨AllocRet.ok ma, some c, some d, KRet.ok⟩).created
      = [KCall.alloc_chrdev_region, KCall.class_create,
         KCall.device_create (some c) (MKDEV ma 0), KCall.cdev_init,
         KCall.cdev_add (MKDEV ma 0)] ∧
    char_drv_exit (char_drv_init ⟨AllocRet.ok ma, some c, some d, KRet.ok⟩).state
      = [KCall.device_destroy (some c) (MKDEV ma 0), KCall.cdev_del,
         KCall.class_destroy c, KCall.unregister_chrdev_region (MKDEV ma 0)] := by
  have hm := MKDEV_ne_neg_one ma
  refine ⟨?_, ?_, ?_⟩ <;>
    simp [char_drv_init, char_drv_exit, error_exit, cleanup, AllocRet.code, AllocRet.store,
      KRet.code, RegState.initial, hm]

end CharDrv
